import Mathlib

/-!
Verification of the costing engine of `src/app.py` (business-services catalog).

The catalog (SQLAlchemy models `ServiceType`, `Service`, `MaterialType`,
`Material`, `ServiceMaterial`) is embedded as lists of records; a
`filter_by(...).first()` query becomes `List.find?` and a
`filter_by(...).all()` query becomes `List.filter`.  SQL `Numeric` columns and
Python floats are modelled as exact rationals (`ℚ`); Python's `round(x, 2)`
is modelled as decimal round-half-to-even to two places.

Each costing function is embedded in two layers:
* a core returning `Except CalcErr _`, where the error constructor records
  which failure branch of the source fired (each branch has its own
  `logger.error` message, so the branches are observably distinct);
* the numeric value handed to the caller, which collapses every error to the
  sentinel `-1`, exactly as every `return -1` in the source does.
-/

namespace DemoProbo

/-- Row of table `service_types` (src/app.py lines 24-28). -/
structure ServiceType where
  type_name : String
  complexity_coefficient : ℚ
deriving DecidableEq

/-- Row of table `services` (src/app.py lines 31-40). -/
structure Service where
  service_code : String
  type_name : String
  service_name : String
  min_cost : ℚ
  time_norm_hours : ℚ
  hourly_rate : ℚ
deriving DecidableEq

/-- Row of table `material_types` (src/app.py lines 66-70). -/
structure MaterialType where
  type_name : String
  overconsumption_percent : ℚ
deriving DecidableEq

/-- Row of table `materials` (src/app.py lines 73-79). -/
structure Material where
  material_id : ℤ
  type_name : String
  material_name : String
  current_price : ℚ
deriving DecidableEq

/-- Row of table `service_materials` (src/app.py lines 82-86). -/
structure ServiceMaterial where
  service_code : String
  material_id : ℤ
  consumption_norm : ℚ
deriving DecidableEq

/-- The catalog state the engine reads: all five tables. -/
structure Catalog where
  service_types : List ServiceType
  services : List Service
  material_types : List MaterialType
  materials : List Material
  service_materials : List ServiceMaterial
deriving DecidableEq

/-- Failure categories, one per distinct `logger.error`-and-`return -1`
branch of the two engine functions. -/
inductive CalcErr where
  | notFound
  | noMaterials
  | invalidInput
deriving DecidableEq

/-- `Service.query.filter_by(service_code=...).first()` (src/app.py line 91). -/
def findService (c : Catalog) (service_code : String) : Option Service :=
  c.services.find? (fun s => s.service_code == service_code)

/-- `ServiceMaterial.query.filter_by(service_code=...).all()` (src/app.py line 98). -/
def serviceRows (c : Catalog) (service_code : String) : List ServiceMaterial :=
  c.service_materials.filter (fun sm => sm.service_code == service_code)

/-- `Material.query.filter_by(material_id=...).first()` (src/app.py line 104). -/
def findMaterial (c : Catalog) (material_id : ℤ) : Option Material :=
  c.materials.find? (fun m => m.material_id == material_id)

/-- `ServiceType.query.filter_by(type_name=...).first()` (src/app.py line 128). -/
def findServiceType (c : Catalog) (type_name : String) : Option ServiceType :=
  c.service_types.find? (fun st => st.type_name == type_name)

/-- `MaterialType.query.filter_by(type_name=...).first()` (src/app.py line 134). -/
def findMaterialType (c : Catalog) (type_name : String) : Option MaterialType :=
  c.material_types.find? (fun mt => mt.type_name == type_name)

/-- Decimal round-half-to-even to an integer, modelling Python's `round`
applied to a value with an exact tie; away from ties it is rounding to the
nearest integer. -/
def roundHalfEven (q : ℚ) : ℤ :=
  if q - (⌊q⌋ : ℚ) = 1 / 2 then (if ⌊q⌋ % 2 = 0 then ⌊q⌋ else ⌊q⌋ + 1)
  else round q

/-- Python's `round(x, 2)` (src/app.py line 111): round to two decimal
places. -/
def round2 (q : ℚ) : ℚ := (roundHalfEven (q * 100) : ℚ) / 100

/-- The `for sm in service_materials` loop of src/app.py lines 103-108:
accumulates `consumption_norm × current_price`, aborting with the
material-not-found failure (line 107) as soon as a row's material does not
resolve. -/
def materialCostLoop (c : Catalog) : List ServiceMaterial → Except CalcErr ℚ
  | [] => .ok 0
  | sm :: rest =>
    match findMaterial c sm.material_id with
    | none => .error .notFound
    | some material =>
      (materialCostLoop c rest).map
        (fun acc => sm.consumption_norm * material.current_price + acc)

/-- Core of `calculate_service_cost` (src/app.py lines 89-114), with each
`return -1` branch mapped to the failure category of its log message. -/
def calculate_service_cost_core (c : Catalog) (service_code : String) :
    Except CalcErr ℚ :=
  match findService c service_code with
  | none => .error .notFound
  | some service =>
    let labor_cost := service.time_norm_hours * service.hourly_rate
    let service_materials := serviceRows c service_code
    if service_materials.isEmpty then .error .noMaterials
    else
      (materialCostLoop c service_materials).map
        (fun material_cost => round2 (labor_cost + material_cost))

/-- The value `calculate_service_cost` actually returns to its caller:
every failure is the numeric sentinel `-1` (src/app.py lines 94, 101, 107,
114). -/
def calculate_service_cost (c : Catalog) (service_code : String) : ℚ :=
  match calculate_service_cost_core c service_code with
  | .error _ => -1
  | .ok v => v

/-- A dynamically-typed Python argument, as far as the `isinstance` checks
of `calculate_material_quantity` can observe it: an `int`, a `float`, or a
value of some other type (e.g. a string). -/
inductive PyVal where
  | int (n : ℤ)
  | float (q : ℚ)
  | str (s : String)
deriving DecidableEq

/-- `isinstance(x, int)` (src/app.py line 120). -/
def PyVal.isInt : PyVal → Bool
  | .int _ => true
  | _ => false

/-- `isinstance(x, (int, float))` (src/app.py line 123). -/
def PyVal.isNum : PyVal → Bool
  | .int _ => true
  | .float _ => true
  | _ => false

/-- Numeric value of a Python argument; only consulted after the
`isinstance` guard has accepted it, mirroring the short-circuit in the
source. -/
def PyVal.toRat : PyVal → ℚ
  | .int n => (n : ℚ)
  | .float q => q
  | .str _ => 0

/-- Core of `calculate_material_quantity` (src/app.py lines 117-150), with
each `return -1` branch mapped to the failure category of its log message. -/
def calculate_material_quantity_core (c : Catalog)
    (service_type material_type : String) (quantity service_params : PyVal) :
    Except CalcErr ℤ :=
  if quantity.isInt = false ∨ quantity.toRat ≤ 0 then .error .invalidInput
  else if service_params.isNum = false ∨ service_params.toRat ≤ 0 then
    .error .invalidInput
  else
    match findServiceType c service_type with
    | none => .error .notFound
    | some service_type_data =>
      match findMaterialType c material_type with
      | none => .error .notFound
      | some material_type_data =>
        let base_quantity :=
          service_params.toRat * service_type_data.complexity_coefficient
        let overconsumption := material_type_data.overconsumption_percent
        let total_quantity :=
          base_quantity * quantity.toRat * (1 + overconsumption)
        .ok ⌈total_quantity⌉

/-- The value `calculate_material_quantity` actually returns to its caller:
every failure is the numeric sentinel `-1` (src/app.py lines 122, 125, 131,
137, 150). -/
def calculate_material_quantity (c : Catalog)
    (service_type material_type : String) (quantity service_params : PyVal) :
    ℤ :=
  match calculate_material_quantity_core c service_type material_type
      quantity service_params with
  | .error _ => -1
  | .ok v => v

/-- Price of the material a consumption row resolves to (`0` if
unresolvable; only used under a hypothesis that resolution succeeds). -/
def resolvedPrice (c : Catalog) (sm : ServiceMaterial) : ℚ :=
  match findMaterial c sm.material_id with
  | none => 0
  | some m => m.current_price

/-- The catalog after overwriting the `min_cost` column of the service(s)
with the given code, touching nothing else. -/
def setMinCost (c : Catalog) (service_code : String) (v : ℚ) : Catalog :=
  { c with
    services := c.services.map
      (fun s =>
        if s.service_code == service_code then { s with min_cost := v }
        else s) }

/-- A caller-supplied `quantity` is valid when it is a positive integer. -/
def validQuantity : PyVal → Bool
  | .int n => decide (0 < n)
  | _ => false

/-- A caller-supplied `service_params` is valid when it is a positive
number (`int` or `float`). -/
def validServiceParams : PyVal → Bool
  | .int n => decide (0 < n)
  | .float q => decide (0 < q)
  | _ => false

/-! ### Concrete fixture catalogs (from the worked examples in the spec) -/

/-- ServiceType "A" with complexity coefficient 1.5. -/
def stA : ServiceType := ⟨"A", 3 / 2⟩

/-- MaterialType "B" with overconsumption percent 0.10. -/
def mtB : MaterialType := ⟨"B", 1 / 10⟩

/-- Service "S1" with time norm 2.0 h and hourly rate 500.00. -/
def svcS1 : Service := ⟨"S1", "A", "Demo service", 100, 2, 500⟩

/-- Material with id 1 and current price 50.00. -/
def matM1 : Material := ⟨1, "B", "Demo material", 50⟩

/-- Consumption row: service "S1" uses 4 units of material 1. -/
def rowS1 : ServiceMaterial := ⟨"S1", 1, 4⟩

/-- Full fixture catalog of the cost example. -/
def exCatalog : Catalog := ⟨[stA], [svcS1], [mtB], [matM1], [rowS1]⟩

/-- Empty catalog: every lookup misses. -/
def emptyCatalog : Catalog := ⟨[], [], [], [], []⟩

/-- Catalog holding service "S1" but no consumption rows for it. -/
def noRowsCatalog : Catalog := ⟨[stA], [svcS1], [mtB], [matM1], []⟩

/-- Catalog holding service "S1" and its consumption row but not the
material the row references. -/
def danglingCatalog : Catalog := ⟨[stA], [svcS1], [mtB], [], [rowS1]⟩

/-- Catalog holding service type "A" but no material types. -/
def stOnlyCatalog : Catalog := ⟨[stA], [], [], [], []⟩


/-! ### Shared helper lemmas -/

/-- If a rational is nonnegative so is its decimal round-half-even. -/
theorem roundHalfEven_nonneg {q : ℚ} (h : 0 ≤ q) : 0 ≤ roundHalfEven q := by
  unfold roundHalfEven
  have hf : (0 : ℤ) ≤ ⌊q⌋ := Int.floor_nonneg.mpr h
  split
  · split
    · exact hf
    · omega
  · rw [round_eq]
    exact Int.floor_nonneg.mpr (by linarith)

/-- Rounding to two decimal places preserves nonnegativity. -/
theorem round2_nonneg {q : ℚ} (h : 0 ≤ q) : 0 ≤ round2 q := by
  unfold round2
  have hr : (0 : ℤ) ≤ roundHalfEven (q * 100) :=
    roundHalfEven_nonneg (by positivity)
  have : (0 : ℚ) ≤ (roundHalfEven (q * 100) : ℚ) := by exact_mod_cast hr
  linarith

/-- When every row's material resolves, the accumulation loop succeeds and
returns the sum of `consumption_norm × current_price` over the rows. -/
theorem materialCostLoop_eq_sum (c : Catalog) (rows : List ServiceMaterial)
    (h : ∀ sm ∈ rows, (findMaterial c sm.material_id).isSome) :
    materialCostLoop c rows =
      .ok ((rows.map (fun sm => sm.consumption_norm * resolvedPrice c sm)).sum) := by
  induction rows with
  | nil => simp [materialCostLoop]
  | cons sm rest ih =>
    obtain ⟨m, hm⟩ :=
      Option.isSome_iff_exists.mp (h sm (List.mem_cons_self sm rest))
    have hrest : ∀ x ∈ rest, (findMaterial c x.material_id).isSome :=
      fun x hx => h x (List.mem_cons_of_mem sm hx)
    simp [materialCostLoop, hm, ih hrest, resolvedPrice, Except.map]

/-- If some row's material does not resolve, the accumulation loop aborts
with the material-not-found failure. -/
theorem materialCostLoop_dangling (c : Catalog) (rows : List ServiceMaterial)
    (sm : ServiceMaterial) (hmem : sm ∈ rows)
    (hnone : findMaterial c sm.material_id = none) :
    materialCostLoop c rows = .error .notFound := by
  induction rows with
  | nil => cases hmem
  | cons a rest ih =>
    rcases List.mem_cons.mp hmem with rfl | hmem2
    · simp [materialCostLoop, hnone]
    · unfold materialCostLoop
      cases hfm : findMaterial c a.material_id with
      | none => rfl
      | some m => simp [ih hmem2, Except.map]

/-! ### The claims -/

/-- Claim C6: for every service identifier absent from the catalog,
`calculate_service_cost` fails with the NotFound category, whatever the
rest of the catalog holds. -/
theorem service_cost_unknown_is_notFound (c : Catalog) (service_code : String)
    (h : findService c service_code = none) :
    calculate_service_cost_core c service_code = .error .notFound := by
  simp [calculate_service_cost_core, h]

/-- Witness for C6: the empty catalog resolves no service, and the cost
calculation reports NotFound there. -/
theorem service_cost_unknown_is_notFound_witness :
    calculate_service_cost_core emptyCatalog "S1" = .error .notFound :=
  service_cost_unknown_is_notFound emptyCatalog "S1" (by decide)

/-- Claim C7: a service that exists but has zero consumption rows makes
`calculate_service_cost` fail with the NoMaterials category instead of
returning a labor-only cost. -/
theorem service_cost_no_rows_is_noMaterials (c : Catalog)
    (service_code : String) (svc : Service)
    (hfind : findService c service_code = some svc)
    (hrows : serviceRows c service_code = []) :
    calculate_service_cost_core c service_code = .error .noMaterials := by
  simp [calculate_service_cost_core, hfind, hrows]

/-- Witness for C7: service "S1" exists in `noRowsCatalog` with no
consumption rows, and the cost calculation reports NoMaterials. -/
theorem service_cost_no_rows_is_noMaterials_witness :
    calculate_service_cost_core noRowsCatalog "S1" = .error .noMaterials :=
  service_cost_no_rows_is_noMaterials noRowsCatalog "S1" svcS1
    (by decide) (by decide)

/-- Claim C8: if any consumption row of a service references a material
absent from the catalog, `calculate_service_cost` fails (with the NotFound
category) and in particular never returns a partially computed cost. -/
theorem service_cost_dangling_material_fails (c : Catalog)
    (service_code : String) (svc : Service)
    (hfind : findService c service_code = some svc)
    (sm : ServiceMaterial) (hmem : sm ∈ serviceRows c service_code)
    (hnone : findMaterial c sm.material_id = none) :
    calculate_service_cost_core c service_code = .error .notFound ∧
    ∀ v : ℚ, calculate_service_cost_core c service_code ≠ .ok v := by
  have hne : serviceRows c service_code ≠ [] := by
    intro hnil
    rw [hnil] at hmem
    cases hmem
  have hloop := materialCostLoop_dangling c (serviceRows c service_code) sm hmem hnone
  have hmain : calculate_service_cost_core c service_code = .error .notFound := by
    simp [calculate_service_cost_core, hfind, List.isEmpty_iff, hne, hloop, Except.map]
  exact ⟨hmain, fun v hv => by simp [hmain] at hv⟩

/-- Witness for C8: in `danglingCatalog` the single row of "S1" references
material 1, which is absent, and the calculation fails with NotFound. -/
theorem service_cost_dangling_material_fails_witness :
    calculate_service_cost_core danglingCatalog "S1" = .error .notFound ∧
    ∀ v : ℚ, calculate_service_cost_core danglingCatalog "S1" ≠ .ok v :=
  service_cost_dangling_material_fails danglingCatalog "S1" svcS1
    (by decide) rowS1 (by decide) (by decide)

/-- Claim C1: for a service that exists, has at least one consumption row,
and whose every referenced material resolves, `calculate_service_cost`
succeeds with `round(time_norm_hours × hourly_rate + Σ consumption_norm ×
current_price, 2 dp)`, and — under the catalog invariants that the labor
fields, norms and prices are nonnegative — the returned cost is ≥ 0. -/
theorem service_cost_success_formula (c : Catalog) (service_code : String)
    (svc : Service) (hfind : findService c service_code = some svc)
    (hrows : serviceRows c service_code ≠ [])
    (hres : ∀ sm ∈ serviceRows c service_code,
      (findMaterial c sm.material_id).isSome)
    (htime : 0 ≤ svc.time_norm_hours) (hrate : 0 ≤ svc.hourly_rate)
    (hnorm : ∀ sm ∈ serviceRows c service_code, 0 ≤ sm.consumption_norm)
    (hprice : ∀ sm ∈ serviceRows c service_code, 0 ≤ resolvedPrice c sm) :
    calculate_service_cost_core c service_code =
      .ok (round2 (svc.time_norm_hours * svc.hourly_rate +
        ((serviceRows c service_code).map
          (fun sm => sm.consumption_norm * resolvedPrice c sm)).sum)) ∧
    0 ≤ calculate_service_cost c service_code := by
  have hloop := materialCostLoop_eq_sum c (serviceRows c service_code) hres
  have hmain : calculate_service_cost_core c service_code =
      .ok (round2 (svc.time_norm_hours * svc.hourly_rate +
        ((serviceRows c service_code).map
          (fun sm => sm.consumption_norm * resolvedPrice c sm)).sum)) := by
    simp [calculate_service_cost_core, hfind, List.isEmpty_iff, hrows, hloop,
      Except.map]
  refine ⟨hmain, ?_⟩
  have hsum : 0 ≤ ((serviceRows c service_code).map
      (fun sm => sm.consumption_norm * resolvedPrice c sm)).sum := by
    apply List.sum_nonneg
    intro x hx
    obtain ⟨sm, hsm, rfl⟩ := List.mem_map.mp hx
    exact mul_nonneg (hnorm sm hsm) (hprice sm hsm)
  have htotal : 0 ≤ svc.time_norm_hours * svc.hourly_rate +
      ((serviceRows c service_code).map
        (fun sm => sm.consumption_norm * resolvedPrice c sm)).sum := by
    have := mul_nonneg htime hrate
    linarith
  simp [calculate_service_cost, hmain]
  exact round2_nonneg htotal

/-- Witness for C1: the spec's worked example — "S1" with time norm 2.0 h,
hourly rate 500.00, one row with norm 4 and price 50.00 — succeeds with
cost 1200.00 ≥ 0. -/
theorem service_cost_success_formula_witness :
    (calculate_service_cost_core exCatalog "S1" =
      .ok (round2 (svcS1.time_norm_hours * svcS1.hourly_rate +
        ((serviceRows exCatalog "S1").map
          (fun sm => sm.consumption_norm * resolvedPrice exCatalog sm)).sum)) ∧
    0 ≤ calculate_service_cost exCatalog "S1") ∧
    calculate_service_cost exCatalog "S1" = 1200 := by
  refine ⟨service_cost_success_formula exCatalog "S1" svcS1 (by decide)
    (by decide) (by decide) (by decide) (by decide) (by decide) (by decide), ?_⟩
  simp [calculate_service_cost, calculate_service_cost_core, findService,
    serviceRows, findMaterial, materialCostLoop, exCatalog, svcS1, matM1,
    rowS1, List.find?, List.filter, Except.map]
  norm_num [round2, roundHalfEven, round_eq, Int.fract]

/-- Shared success-path evaluation of `calculate_material_quantity`: with a
positive integer quantity, a positive numeric `service_params` and both
types resolvable, it returns the ceiling of
`service_params × complexity_coefficient × quantity × (1 + overconsumption_percent)`. -/
theorem material_quantity_core_eq (c : Catalog) (stn mtn : String)
    (st : ServiceType) (mt : MaterialType)
    (hst : findServiceType c stn = some st)
    (hmt : findMaterialType c mtn = some mt)
    (n : ℤ) (hn : 0 < n) (sp : ℚ) (hsp : 0 < sp) :
    calculate_material_quantity_core c stn mtn (.int n) (.float sp) =
      .ok ⌈sp * st.complexity_coefficient * (n : ℚ) *
        (1 + mt.overconsumption_percent)⌉ := by
  have hq : ¬ ((n : ℚ) ≤ 0) := not_le.mpr (by exact_mod_cast hn)
  have hs : ¬ (sp ≤ 0) := not_le.mpr hsp
  simp [calculate_material_quantity_core, PyVal.isInt, PyVal.isNum,
    PyVal.toRat, hq, hs, hst, hmt]

/-- Claim C2: for resolvable service and material types, a positive integer
quantity and positive `service_params`, `calculate_material_quantity`
returns `ceil(service_params × complexity_coefficient × quantity ×
(1 + overconsumption_percent))`. -/
theorem material_quantity_formula (c : Catalog) (stn mtn : String)
    (st : ServiceType) (mt : MaterialType)
    (hst : findServiceType c stn = some st)
    (hmt : findMaterialType c mtn = some mt)
    (n : ℤ) (hn : 0 < n) (sp : ℚ) (hsp : 0 < sp) :
    calculate_material_quantity_core c stn mtn (.int n) (.float sp) =
      .ok ⌈sp * st.complexity_coefficient * (n : ℚ) *
        (1 + mt.overconsumption_percent)⌉ :=
  material_quantity_core_eq c stn mtn st mt hst hmt n hn sp hsp

/-- Witness for C2: the spec's worked example — coefficient 1.5,
overconsumption 0.10, quantity 3, `service_params` 2.0 — yields 10. -/
theorem material_quantity_formula_witness :
    calculate_material_quantity_core exCatalog "A" "B"
      (PyVal.int 3) (PyVal.float 2) = .ok 10 := by
  rw [material_quantity_formula exCatalog "A" "B" stA mtB rfl rfl
    3 (by norm_num) 2 (by norm_num)]
  norm_num [stA, mtB, Int.ceil_eq_iff]

/-- Claim C3: on valid inputs with both types resolvable, under the catalog
invariants `complexity_coefficient > 0` and `overconsumption_percent ≥ 0`,
`calculate_material_quantity` succeeds with a positive integer that is at
least `ceil(service_params × complexity_coefficient × quantity)`, and the
result is monotonically non-decreasing when `quantity` and `service_params`
grow (catalog and types fixed). -/
theorem material_quantity_bounds_mono (c : Catalog) (stn mtn : String)
    (st : ServiceType) (mt : MaterialType)
    (hst : findServiceType c stn = some st)
    (hmt : findMaterialType c mtn = some mt)
    (hcc : 0 < st.complexity_coefficient)
    (hop : 0 ≤ mt.overconsumption_percent)
    (n n' : ℤ) (sp sp' : ℚ)
    (hn : 0 < n) (hnn : n ≤ n') (hsp : 0 < sp) (hss : sp ≤ sp') :
    ∃ k k' : ℤ,
      calculate_material_quantity_core c stn mtn (.int n) (.float sp) = .ok k ∧
      calculate_material_quantity_core c stn mtn (.int n') (.float sp') = .ok k' ∧
      0 < k ∧ ⌈sp * st.complexity_coefficient * (n : ℚ)⌉ ≤ k ∧ k ≤ k' := by
  have hn' : 0 < n' := lt_of_lt_of_le hn hnn
  have hsp' : 0 < sp' := lt_of_lt_of_le hsp hss
  have h1 := material_quantity_core_eq c stn mtn st mt hst hmt n hn sp hsp
  have h2 := material_quantity_core_eq c stn mtn st mt hst hmt n' hn' sp' hsp'
  have hnQ : (0 : ℚ) < (n : ℚ) := by exact_mod_cast hn
  have hnnQ : ((n : ℚ)) ≤ (n' : ℚ) := by exact_mod_cast hnn
  have hfac : (0 : ℚ) < 1 + mt.overconsumption_percent := by linarith
  have hbase : (0 : ℚ) < sp * st.complexity_coefficient * (n : ℚ) :=
    mul_pos (mul_pos hsp hcc) hnQ
  refine ⟨_, _, h1, h2, ?_, ?_, ?_⟩
  · exact Int.ceil_pos.mpr (mul_pos hbase hfac)
  · apply Int.ceil_mono
    exact le_mul_of_one_le_right hbase.le (by linarith)
  · apply Int.ceil_mono
    have hstep : sp * st.complexity_coefficient * (n : ℚ) ≤
        sp' * st.complexity_coefficient * (n' : ℚ) :=
      mul_le_mul (mul_le_mul_of_nonneg_right hss hcc.le) hnnQ hnQ.le
        (mul_nonneg hsp'.le hcc.le)
    exact mul_le_mul_of_nonneg_right hstep hfac.le

/-- Witness for C3: on the fixture catalog with quantity 3 ≤ 4 and
`service_params` 2 ≤ 5/2 both calls succeed, the first result is positive
and at least `ceil(2 × 1.5 × 3)`, and the results are ordered. -/
theorem material_quantity_bounds_mono_witness :
    ∃ k k' : ℤ,
      calculate_material_quantity_core exCatalog "A" "B"
        (PyVal.int 3) (PyVal.float 2) = .ok k ∧
      calculate_material_quantity_core exCatalog "A" "B"
        (PyVal.int 4) (PyVal.float (5 / 2)) = .ok k' ∧
      0 < k ∧ ⌈(2 : ℚ) * stA.complexity_coefficient * ((3 : ℤ) : ℚ)⌉ ≤ k ∧
      k ≤ k' :=
  material_quantity_bounds_mono exCatalog "A" "B" stA mtB rfl rfl
    (by norm_num [stA]) (by norm_num [mtB]) 3 4 2 (5 / 2)
    (by norm_num) (by norm_num) (by norm_num) (by norm_num)

/-- Claim C9: on valid numeric inputs, `calculate_material_quantity` fails
with NotFound when the service type is absent, and when the service type
resolves but the material type is absent. -/
theorem material_quantity_unknown_types (c : Catalog) (stn mtn : String)
    (n : ℤ) (hn : 0 < n) (sp : ℚ) (hsp : 0 < sp) :
    (findServiceType c stn = none →
      calculate_material_quantity_core c stn mtn (.int n) (.float sp) =
        .error .notFound) ∧
    (∀ st : ServiceType, findServiceType c stn = some st →
      findMaterialType c mtn = none →
      calculate_material_quantity_core c stn mtn (.int n) (.float sp) =
        .error .notFound) := by
  have hq : ¬ ((n : ℚ) ≤ 0) := not_le.mpr (by exact_mod_cast hn)
  have hs : ¬ (sp ≤ 0) := not_le.mpr hsp
  constructor
  · intro hnone
    simp [calculate_material_quantity_core, PyVal.isInt, PyVal.isNum,
      PyVal.toRat, hq, hs, hnone]
  · intro st hsome hnone
    simp [calculate_material_quantity_core, PyVal.isInt, PyVal.isNum,
      PyVal.toRat, hq, hs, hsome, hnone]

/-- Witness for C9: in the empty catalog the service type "A" is absent; in
`stOnlyCatalog` the type "A" resolves but material type "B" is absent; both
calls fail with NotFound. -/
theorem material_quantity_unknown_types_witness :
    calculate_material_quantity_core emptyCatalog "A" "B"
      (PyVal.int 1) (PyVal.float 1) = .error .notFound ∧
    calculate_material_quantity_core stOnlyCatalog "A" "B"
      (PyVal.int 1) (PyVal.float 1) = .error .notFound :=
  ⟨(material_quantity_unknown_types emptyCatalog "A" "B" 1 (by norm_num) 1
      (by norm_num)).1 (by decide),
   (material_quantity_unknown_types stOnlyCatalog "A" "B" 1 (by norm_num) 1
      (by norm_num)).2 stA rfl rfl⟩

/-- Claim C5: whenever the supplied quantity is not a positive integer or
the supplied `service_params` is not a positive number,
`calculate_material_quantity` fails with InvalidInput, for every catalog
state and whatever the other arguments are. -/
theorem material_quantity_invalid_input (c : Catalog) (stn mtn : String)
    (qv spv : PyVal)
    (h : validQuantity qv = false ∨ validServiceParams spv = false) :
    calculate_material_quantity_core c stn mtn qv spv =
      .error .invalidInput := by
  by_cases hq : validQuantity qv = false
  · cases qv with
    | int n =>
      have hn : ((n : ℚ)) ≤ 0 := by
        have hlt : ¬ (0 < n) := by simpa [validQuantity] using hq
        exact_mod_cast not_lt.mp hlt
      simp [calculate_material_quantity_core, PyVal.isInt, PyVal.toRat, hn]
    | float q => simp [calculate_material_quantity_core, PyVal.isInt]
    | str s => simp [calculate_material_quantity_core, PyVal.isInt]
  · have hsp : validServiceParams spv = false := h.resolve_left hq
    obtain ⟨n, rfl, hn⟩ : ∃ n : ℤ, qv = .int n ∧ 0 < n := by
      cases qv with
      | int n =>
        have hpos : 0 < n := by
          by_contra hle
          exact hq (by simp [validQuantity]; omega)
        exact ⟨n, rfl, hpos⟩
      | float q => exact absurd rfl hq
      | str s => exact absurd rfl hq
    have hnQ : ¬ ((n : ℚ) ≤ 0) := not_le.mpr (by exact_mod_cast hn)
    cases spv with
    | int m =>
      have hm : ((m : ℚ)) ≤ 0 := by
        have hlt : ¬ (0 < m) := by simpa [validServiceParams] using hsp
        exact_mod_cast not_lt.mp hlt
      simp [calculate_material_quantity_core, PyVal.isInt, PyVal.isNum,
        PyVal.toRat, hnQ, hm]
    | float q =>
      have hqle : q ≤ 0 := by
        have hlt : ¬ (0 < q) := by simpa [validServiceParams] using hsp
        exact not_lt.mp hlt
      simp [calculate_material_quantity_core, PyVal.isInt, PyVal.isNum,
        PyVal.toRat, hnQ, hqle]
    | str s =>
      simp [calculate_material_quantity_core, PyVal.isInt, PyVal.isNum,
        PyVal.toRat, hnQ]

/-- Witness for C5: a non-integer quantity (the float 1) triggers
InvalidInput even on the fully populated fixture catalog. -/
theorem material_quantity_invalid_input_witness :
    calculate_material_quantity_core exCatalog "A" "B"
      (PyVal.float 1) (PyVal.float 1) = .error .invalidInput :=
  material_quantity_invalid_input exCatalog "A" "B"
    (PyVal.float 1) (PyVal.float 1) (Or.inl (by decide))

/-- Counterexample to C4 as stated: two distinct failure categories
(NotFound on `emptyCatalog`, NoMaterials on `noRowsCatalog`) reach the
caller as the very same numeric value, the sentinel `-1`, which lives in
the result type of legitimate costs; `calculate_material_quantity` reports
InvalidInput the same way. -/
theorem failure_signal_counterexample :
    calculate_service_cost_core emptyCatalog "S1" = .error .notFound ∧
    calculate_service_cost_core noRowsCatalog "S1" = .error .noMaterials ∧
    calculate_service_cost emptyCatalog "S1" =
      calculate_service_cost noRowsCatalog "S1" ∧
    calculate_service_cost emptyCatalog "S1" = -1 ∧
    calculate_material_quantity exCatalog "A" "B"
      (PyVal.int 0) (PyVal.float 1) = -1 := by
  refine ⟨?_, ?_, ?_, by decide, ?_⟩
  · simp [calculate_service_cost_core, findService, emptyCatalog, List.find?]
  · simp [calculate_service_cost_core, findService, serviceRows,
      noRowsCatalog, svcS1, List.find?, List.filter]
  · have h2 : calculate_service_cost noRowsCatalog "S1" = -1 := by
      simp [calculate_service_cost, calculate_service_cost_core, findService,
        serviceRows, noRowsCatalog, svcS1, List.find?, List.filter]
    rw [h2]
    decide
  · simp [calculate_material_quantity, calculate_material_quantity_core,
      PyVal.isInt, PyVal.toRat]

/-- Claim C4 as amended: every failure of either operation reaches the
caller as the single numeric sentinel `-1`; the failure categories are told
apart only by the engine's log branch, not by the returned value. -/
theorem failure_sentinel_uniform (c : Catalog)
    (service_code stn mtn : String) (qv spv : PyVal) (e e2 : CalcErr)
    (h1 : calculate_service_cost_core c service_code = .error e)
    (h2 : calculate_material_quantity_core c stn mtn qv spv = .error e2) :
    calculate_service_cost c service_code = -1 ∧
    calculate_material_quantity c stn mtn qv spv = -1 := by
  constructor
  · simp [calculate_service_cost, h1]
  · simp [calculate_material_quantity, h2]

/-- Witness for C4's amended statement: a NotFound cost failure and an
InvalidInput quantity failure both surface as `-1`. -/
theorem failure_sentinel_uniform_witness :
    calculate_service_cost emptyCatalog "S1" = -1 ∧
    calculate_material_quantity exCatalog "A" "B"
      (PyVal.int 0) (PyVal.float 1) = -1 :=
  failure_sentinel_uniform emptyCatalog "S1" "A" "B"
    (PyVal.int 0) (PyVal.float 1) CalcErr.notFound CalcErr.invalidInput
    (by simp [calculate_service_cost_core, findService, emptyCatalog,
      List.find?])
    (by simp [calculate_material_quantity_core, PyVal.isInt, PyVal.toRat])

/-- Helper for C10: looking up a service code in a list whose entries with
that code had their `min_cost` overwritten finds the overwritten version of
whatever the original lookup finds. -/
theorem find?_map_setMinCost (l : List Service) (service_code : String)
    (v : ℚ) :
    (l.map (fun s =>
        if s.service_code == service_code then { s with min_cost := v }
        else s)).find? (fun s => s.service_code == service_code) =
      (l.find? (fun s => s.service_code == service_code)).map
        (fun s =>
          if s.service_code == service_code then { s with min_cost := v }
          else s) := by
  have hcode : ∀ s : Service,
      ((if s.service_code == service_code then { s with min_cost := v }
        else s) : Service).service_code = s.service_code := by
    intro s
    split <;> rfl
  induction l with
  | nil => rfl
  | cons a l ih =>
    simp only [List.map_cons, List.find?_cons, hcode a]
    cases ha : a.service_code == service_code with
    | true => simp [show a.service_code = service_code from by simpa using ha]
    | false => simpa using ih

/-- Helper for C10: `setMinCost` touches no consumption rows. -/
theorem serviceRows_setMinCost (c : Catalog) (code code2 : String) (v : ℚ) :
    serviceRows (setMinCost c code v) code2 = serviceRows c code2 := rfl

/-- Helper for C10: `setMinCost` touches no materials, so the accumulation
loop is unchanged. -/
theorem materialCostLoop_setMinCost (c : Catalog) (code : String) (v : ℚ)
    (rows : List ServiceMaterial) :
    materialCostLoop (setMinCost c code v) rows = materialCostLoop c rows := by
  induction rows with
  | nil => rfl
  | cons sm rest ih =>
    unfold materialCostLoop
    rw [ih]
    rfl

/-- Claim C10: `calculate_service_cost` never reads `min_cost`: overwriting
the `min_cost` of the queried service leaves both the discriminated outcome
and the value returned to the caller unchanged, for every catalog, service
code and new value. -/
theorem service_cost_ignores_min_cost (c : Catalog) (service_code : String)
    (v : ℚ) :
    calculate_service_cost_core (setMinCost c service_code v) service_code =
      calculate_service_cost_core c service_code ∧
    calculate_service_cost (setMinCost c service_code v) service_code =
      calculate_service_cost c service_code := by
  have hfind : findService (setMinCost c service_code v) service_code =
      (findService c service_code).map
        (fun s =>
          if s.service_code == service_code then { s with min_cost := v }
          else s) :=
    find?_map_setMinCost c.services service_code v
  have hcore : calculate_service_cost_core (setMinCost c service_code v)
      service_code = calculate_service_cost_core c service_code := by
    cases hs : findService c service_code with
    | none =>
      have h1 : findService (setMinCost c service_code v) service_code =
          none := by
        rw [hfind, hs]
        rfl
      simp [calculate_service_cost_core, h1, hs]
    | some s =>
      by_cases hmatch : (s.service_code == service_code) = true
      · have h1 : findService (setMinCost c service_code v) service_code =
            some { s with min_cost := v } := by
          rw [hfind, hs]
          simp [show s.service_code = service_code from by simpa using hmatch]
        simp only [calculate_service_cost_core, h1, hs,
          serviceRows_setMinCost, materialCostLoop_setMinCost]
      · have h1 : findService (setMinCost c service_code v) service_code =
            some s := by
          rw [hfind, hs]
          simp [show ¬ s.service_code = service_code from by
            simpa using hmatch]
        simp only [calculate_service_cost_core, h1, hs,
          serviceRows_setMinCost, materialCostLoop_setMinCost]
  refine ⟨hcore, ?_⟩
  simp [calculate_service_cost, hcore]

end DemoProbo
